import Mathlib

/-!
Formal model of the `senditly-js` browser tag.  Covered components, each
translated from its TypeScript source: the session-gated orchestrator
(`SenditlyTag`, packages/tag), the zod request validation of the web client
(`SessionAPI` / `EventAPI`, packages/web), the URL-change observer
(`listenUrlChange`), and the two interception plugins (the Segment
source-middleware plugin and the Karte callable plugin).  The cooperative
(event-loop) behaviour of the async methods is modelled by event traces:
each operation yields the ordered list of its observable events
(suspensions, validation failures, outbound network calls) together with
its result, `Except` standing for a promise that fulfils or rejects.
-/

/-- A primitive JavaScript value as it appears in event traits and payloads.
`null` is a value; an absent key stands for `undefined`. -/
inductive JPrim where
  | pStr (s : String)
  | pNum (n : Int)
  | pBool (b : Bool)
  | pNull
  deriving DecidableEq, Repr

/-- JavaScript truthiness of a primitive value. -/
def JPrim.truthy : JPrim → Bool
  | .pStr s => !s.isEmpty
  | .pNum n => n != 0
  | .pBool b => b
  | .pNull => false

/-- Truthiness of a possibly-absent value (`none` = `undefined`, falsy). -/
def optTruthy : Option JPrim → Bool
  | some v => v.truthy
  | none => false

/-- JavaScript object field read on an association-list representation. -/
def lookupKey {α : Type} : List (String × α) → String → Option α
  | [], _ => none
  | (k, v) :: rest, key => if k = key then some v else lookupKey rest key

/-- JavaScript object field assignment `obj[k] = v`: overwrites an existing
binding in place, otherwise appends the binding at the end. -/
def setKey {α : Type} : List (String × α) → String → α → List (String × α)
  | [], k, v => [(k, v)]
  | (k0, v0) :: rest, k, v =>
      if k0 = k then (k, v) :: rest else (k0, v0) :: setKey rest k v

/-! ### Email validation

`sessionIdentifyRequestSchema` (session.ts) validates `email` with zod's
default email pattern
`^(?!\.)(?!.*\.\.)([A-Za-z0-9_'+\-\.]*)[A-Za-z0-9_+-]@([A-Za-z0-9][A-Za-z0-9\-]*\.)+[A-Za-z]\x7b2,\x7d$`.
Neither the local-part class nor the domain classes accept `@`, so a match
splits the string at its unique `@`; the two leading lookaheads are
whole-string conditions (no leading dot, no `..`). -/

/-- Local-part character class `[A-Za-z0-9_'+\-\.]` (`Char.ofNat 39` is the
apostrophe). -/
def isLocalChar (c : Char) : Bool :=
  c.isAlphanum || c == '_' || c == Char.ofNat 39 || c == '+' || c == '-' || c == '.'

/-- The character that must end the local part: `[A-Za-z0-9_+-]`. -/
def isLocalEndChar (c : Char) : Bool :=
  c.isAlphanum || c == '_' || c == '+' || c == '-'

/-- Whole-string lookahead `(?!.*\.\.)`: no two consecutive dots. -/
def noDoubleDot : List Char → Bool
  | [] => true
  | [_] => true
  | a :: b :: rest => !(a == '.' && b == '.') && noDoubleDot (b :: rest)

/-- Split a character list on a separator (pieces may be empty). -/
def splitOnChar (sep : Char) : List Char → List (List Char)
  | [] => [[]]
  | c :: rest =>
      match splitOnChar sep rest with
      | [] => [[c]]
      | piece :: pieces =>
          if c == sep then [] :: piece :: pieces else (c :: piece) :: pieces

/-- `([A-Za-z0-9_'+\-\.]*)[A-Za-z0-9_+-]` — nonempty, every character in
the local class, the last in the end class. -/
def validLocalPart (l : List Char) : Bool :=
  match l.getLast? with
  | some c => l.all isLocalChar && isLocalEndChar c
  | none => false

/-- One domain label `[A-Za-z0-9][A-Za-z0-9\-]*`. -/
def validDomainLabel : List Char → Bool
  | [] => false
  | c :: rest => c.isAlphanum && rest.all (fun d => d.isAlphanum || d == '-')

/-- Final label `[A-Za-z]\x7b2,\x7d`. -/
def validTld (l : List Char) : Bool :=
  decide (2 ≤ l.length) && l.all Char.isAlpha

/-- `([A-Za-z0-9][A-Za-z0-9\-]*\.)+[A-Za-z]\x7b2,\x7d`: at least one
dot-terminated label followed by the final alphabetic label. -/
def validDomain (dom : List Char) : Bool :=
  let parts := splitOnChar '.' dom
  match parts.getLast? with
  | some tld =>
      decide (2 ≤ parts.length) && parts.dropLast.all validDomainLabel && validTld tld
  | none => false

/-- The zod email check used by `sessionIdentifyRequestSchema`. -/
def isValidEmail (s : String) : Bool :=
  let cs := s.data
  (match cs.head? with
   | some c => !(c == '.')
   | none => false) &&
  noDoubleDot cs &&
  (match splitOnChar '@' cs with
   | [localPart, domainPart] => validLocalPart localPart && validDomain domainPart
   | _ => false)

/-! ### The orchestrator (`SenditlyTag`, packages/tag src/index) -/

/-- The structured error of the web client (`APIError`, resource.ts):
an HTTP-style status code and a message. -/
structure APIError where
  code : Nat
  message : String
  deriving DecidableEq, Repr

/-- The identify request body (`SessionIdentifyRequest`, session.ts). -/
structure SessionIdentifyRequest where
  email : String
  properties : List (String × JPrim)
  mailingLists : List (String × Bool)
  deriving DecidableEq, Repr

/-- The track request body (`EventTrackRequest`, event.ts). -/
structure EventTrackRequest where
  type : String
  payload : List (String × JPrim)
  deriving DecidableEq, Repr

/-- Observable events of orchestrator operations, in issuance order.
`awaitInit` is the suspension on the stored `_waitForInit` promise;
`validationFail` is the synchronous zod rejection thrown inside
`SessionAPI.identify`; the `net*` events are the outbound requests handed
to the remote client. -/
inductive TagEv where
  | awaitInit
  | validationFail
  | netStart
  | netIdentify (req : SessionIdentifyRequest)
  | netTrack (req : EventTrackRequest)
  deriving DecidableEq, Repr

/-- The resolved outcome of each remote endpoint, fixed per scenario: the
core consumes the remote client only through these three async results
(`startSession`, `identify`, `track`). -/
structure RemoteBehavior where
  startResult : Except APIError Unit
  identifyResult : Except APIError Unit
  trackResult : Except APIError Unit

/-- A constructed `SenditlyTag` once `_waitForInit` has settled: `_isBot`
is the classifier result evaluated at construction, `_initFailed` the flag
set by the `.catch` handler inside `initSession`. -/
structure SenditlyTag where
  isBot : Bool
  initFailed : Bool
  deriving DecidableEq, Repr

/-- `SenditlyTag.initSession`: on a bot it returns before contacting the
remote; otherwise `session.start \x7b\x7d` is issued exactly once and a
rejection is absorbed by the attached `.catch`, which records
`_initFailed := true`.  Yields the settled tag state and the
construction-time event trace. -/
def SenditlyTag.initSession (isBot : Bool) (remote : RemoteBehavior) :
    SenditlyTag × List TagEv :=
  if isBot then ({ isBot := true, initFailed := false }, [])
  else
    match remote.startResult with
    | Except.ok _ => ({ isBot := false, initFailed := false }, [TagEv.netStart])
    | Except.error _ => ({ isBot := false, initFailed := true }, [TagEv.netStart])

/-- `SenditlyTag.waitForReady`: a bot returns `false` without touching
`_waitForInit`; otherwise the caller suspends on the shared `_waitForInit`
promise and then reads `_initFailed`. -/
def SenditlyTag.waitForReady (t : SenditlyTag) : List TagEv × Bool :=
  if t.isBot then ([], false)
  else ([TagEv.awaitInit], !t.initFailed)

/-- `SessionAPI.identify` (session.ts): `safeParse` against
`sessionIdentifyRequestSchema` throws `APIError 400` synchronously before
any request is built; a valid request is posted to `/sessions/identify`. -/
def SessionAPI.identify (remote : RemoteBehavior) (req : SessionIdentifyRequest) :
    List TagEv × Except APIError Unit :=
  if isValidEmail req.email then ([TagEv.netIdentify req], remote.identifyResult)
  else ([TagEv.validationFail], Except.error { code := 400, message := "invalid email" })

/-- `EventAPI.track` (event.ts): `eventTrackRequestSchema` (a string `type`
and an optional record payload) always accepts the typed requests modelled
here, so the request is posted to `/events/track`. -/
def EventAPI.track (remote : RemoteBehavior) (req : EventTrackRequest) :
    List TagEv × Except APIError Unit :=
  ([TagEv.netTrack req], remote.trackResult)

/-- `SenditlyTag.identify`: gate on `waitForReady`, then delegate to
`SessionAPI.identify`; a `false` gate degrades to a fulfilled no-op. -/
def SenditlyTag.identify (t : SenditlyTag) (remote : RemoteBehavior)
    (event : SessionIdentifyRequest) : List TagEv × Except APIError Unit :=
  let (evs, ready) := t.waitForReady
  if ready then
    let (evs2, res) := SessionAPI.identify remote event
    (evs ++ evs2, res)
  else (evs, Except.ok ())

/-- `SenditlyTag.track`: same gating as `identify`, delegating to
`EventAPI.track`. -/
def SenditlyTag.track (t : SenditlyTag) (remote : RemoteBehavior)
    (event : EventTrackRequest) : List TagEv × Except APIError Unit :=
  let (evs, ready) := t.waitForReady
  if ready then
    let (evs2, res) := EventAPI.track remote event
    (evs ++ evs2, res)
  else (evs, Except.ok ())

/-- The host-page globals read by `SenditlyTag.page`. -/
structure BrowserEnv where
  href : String
  title : String
  pathname : String
  referrer : String
  userAgent : String
  deriving DecidableEq, Repr

/-- The canonical page-view payload of `SenditlyTag.page`: the base fields,
then the caller-supplied `additionalPayload` spread last, so caller fields
win on key collision.  An absent `name` is modelled as `pNull`. -/
def pageViewPayload (env : BrowserEnv) (name : Option String)
    (additionalPayload : List (String × JPrim)) : List (String × JPrim) :=
  let base : List (String × JPrim) :=
    [("name", match name with | some s => JPrim.pStr s | none => JPrim.pNull),
     ("url", JPrim.pStr env.href),
     ("title", JPrim.pStr env.title),
     ("pathname", JPrim.pStr env.pathname),
     ("referrer", JPrim.pStr env.referrer),
     ("userAgent", JPrim.pStr env.userAgent)]
  additionalPayload.foldl (fun acc kv => setKey acc kv.1 kv.2) base

/-- `SenditlyTag.page`: gate on `waitForReady`, then track the canonical
`page_view` event. -/
def SenditlyTag.page (t : SenditlyTag) (remote : RemoteBehavior) (env : BrowserEnv)
    (name : Option String) (additionalPayload : List (String × JPrim)) :
    List TagEv × Except APIError Unit :=
  let (evs, ready) := t.waitForReady
  if ready then
    let (evs2, res) := EventAPI.track remote
      { type := "page_view", payload := pageViewPayload env name additionalPayload }
    (evs ++ evs2, res)
  else (evs, Except.ok ())

/-- One gated public call on the orchestrator. -/
inductive GatedCall where
  | callIdentify (req : SessionIdentifyRequest)
  | callTrack (req : EventTrackRequest)
  | callPage (name : Option String) (additionalPayload : List (String × JPrim))
  deriving DecidableEq, Repr

/-- Dispatch one gated call. -/
def runCall (t : SenditlyTag) (remote : RemoteBehavior) (env : BrowserEnv) :
    GatedCall → List TagEv × Except APIError Unit
  | GatedCall.callIdentify req => t.identify remote req
  | GatedCall.callTrack req => t.track remote req
  | GatedCall.callPage name extra => t.page remote env name extra

/-- Run a sequence of gated calls, concatenating their event traces in call
order and collecting each call's result. -/
def runCalls (t : SenditlyTag) (remote : RemoteBehavior) (env : BrowserEnv) :
    List GatedCall → List TagEv × List (Except APIError Unit)
  | [] => ([], [])
  | c :: cs =>
      let (evs, res) := runCall t remote env c
      let (evs2, ress) := runCalls t remote env cs
      (evs ++ evs2, res :: ress)

/-- A whole orchestrator run under the cooperative schedule.  Construction
stores `_waitForInit := initSession()` once, and `initSession` issues the
`startSession` request synchronously up to its first await, so the
construction trace comes first; the constructor's automatic page view
(when `autoTrackPageView` is not `false`) and every caller-issued gated
call suspend on that same stored promise, so their events follow in call
order after the session start has been issued. -/
def tagScenario (isBot autoTrackPageView : Bool) (remote : RemoteBehavior)
    (env : BrowserEnv) (calls : List GatedCall) :
    List TagEv × List (Except APIError Unit) :=
  let (t, initEvs) := SenditlyTag.initSession isBot remote
  let allCalls := (if autoTrackPageView then [GatedCall.callPage none []] else []) ++ calls
  let (evs, ress) := runCalls t remote env allCalls
  (initEvs ++ evs, ress)

/-- Whether an event is an outbound network request of the remote client. -/
def TagEv.isNet : TagEv → Bool
  | TagEv.netStart => true
  | TagEv.netIdentify _ => true
  | TagEv.netTrack _ => true
  | TagEv.awaitInit => false
  | TagEv.validationFail => false

/-- The outbound network requests of a trace, in issuance order. -/
def netEvents (evs : List TagEv) : List TagEv := evs.filter TagEv.isNet

/-- Whether an event is the `startSession` request. -/
def TagEv.isStart : TagEv → Bool
  | TagEv.netStart => true
  | _ => false

/-- Whether a call result is a fulfilled (non-error) promise. -/
def resOk : Except APIError Unit → Bool
  | Except.ok _ => true
  | Except.error _ => false

/-! ### The URL-change observer (`listenUrlChange`, utils/observer.ts) -/

/-- Observer closure state: the single last-known URL (`currentUrl`) and
the `isListening` flag. -/
structure ObserverState where
  currentUrl : String
  isListening : Bool
  deriving DecidableEq, Repr

/-- One invocation of a wrapped history method (`wrapHistoryMethod`,
shared by the `pushState` and `replaceState` wrappers): `previousUrl` is
captured from the closure, the original method has already executed (the
location is now `newLoc`), then the `isListening` flag is consulted —
after the native call, before the callback — and on a URL change the
last-known URL is updated and the callback fires once with
`(newUrl, previousUrl)`.  The returned list holds the callback
invocations of this mutation. -/
def wrapHistoryMethodCall (st : ObserverState) (newLoc : String) :
    ObserverState × List (String × String) :=
  let previousUrl := st.currentUrl
  if !st.isListening then (st, [])
  else if previousUrl ≠ newLoc then
    ({ st with currentUrl := newLoc }, [(newLoc, previousUrl)])
  else (st, [])

/-- The `popstate` handler (back/forward navigation): same guard,
comparison, update and callback, driven by the native event. -/
def handlePopState (st : ObserverState) (newLoc : String) :
    ObserverState × List (String × String) :=
  if !st.isListening then (st, [])
  else if st.currentUrl ≠ newLoc then
    ({ st with currentUrl := newLoc }, [(newLoc, st.currentUrl)])
  else (st, [])

/-- Identity of a function installed in a history-mutation slot. -/
inductive HistFn where
  | nativePush
  | nativeReplace
  | wrappedPush
  | wrappedReplace
  deriving DecidableEq, Repr

/-- The two `History.prototype` mutation entry points and the `popstate`
subscription. -/
structure HistoryEnv where
  pushState : HistFn
  replaceState : HistFn
  popStateListened : Bool
  deriving DecidableEq, Repr

/-- The captured originals owned by one observer instance
(`originalPushState` / `originalReplaceState`). -/
structure UrlObserver where
  originalPushState : HistFn
  originalReplaceState : HistFn
  deriving DecidableEq, Repr

/-- `listenUrlChange`: capture the current slot values, install the
wrappers over both slots, subscribe to `popstate`, and start listening
with the current location as the last-known URL. -/
def listenUrlChange (env : HistoryEnv) (locationHref : String) :
    HistoryEnv × UrlObserver × ObserverState :=
  ({ pushState := HistFn.wrappedPush, replaceState := HistFn.wrappedReplace,
     popStateListened := true },
   { originalPushState := env.pushState, originalReplaceState := env.replaceState },
   { currentUrl := locationHref, isListening := true })

/-- The returned disposer (`disconnect`): clear `isListening`, remove the
`popstate` listener, and reinstall the captured original methods. -/
def UrlObserver.disconnect (obs : UrlObserver) (env : HistoryEnv) (st : ObserverState) :
    HistoryEnv × ObserverState :=
  ({ pushState := obs.originalPushState, replaceState := obs.originalReplaceState,
     popStateListened := false },
   { st with isListening := false })

/-! ### The Segment middleware plugin (plugin-segment, `addMiddleware`) -/

/-- Resolved `SegmentPluginOptions` (the `Required<...>` record built in
the plugin constructor; defaults `"email"`, `[]`, `10000`). -/
structure SegmentPluginOptions where
  emailFieldName : String
  propertiesFieldNames : List String
  timeout : Nat
  deriving DecidableEq, Repr

/-- The third party's event (the `payload.obj.context.event` the
middleware reads): its `type` and optional `traits` object. -/
structure SegEvent where
  type : String
  traits : Option (List (String × JPrim))
  deriving DecidableEq, Repr

/-- A Segment middleware payload; the nesting `payload.obj.context.event`
is flattened to the one field the middleware reads. -/
structure SegPayload where
  event : SegEvent
  deriving DecidableEq, Repr

/-- `event.traits?.[fieldName]`: `undefined` when `traits` is absent or
the key is missing. -/
def lookupTrait (traits : Option (List (String × JPrim))) (fieldName : String) :
    Option JPrim :=
  match traits with
  | some l => lookupKey l fieldName
  | none => none

/-- One step of the `reduce` callback building the forwarded `properties`
object: `acc[fieldName] = value` when the trait value is truthy, otherwise
the accumulator is left unchanged. -/
def propertiesStep (traits : Option (List (String × JPrim)))
    (acc : List (String × JPrim)) (fieldName : String) : List (String × JPrim) :=
  match lookupTrait traits fieldName with
  | some value => if value.truthy then setKey acc fieldName value else acc
  | none => acc

/-- The `reduce` building the forwarded `properties` object over the
configured field names, in order, starting from the empty object. -/
def buildProperties (traits : Option (List (String × JPrim)))
    (names : List String) : List (String × JPrim) :=
  names.foldl (propertiesStep traits) []

/-- The argument of a forwarded `tag.identify` call. -/
structure IdentifyArg where
  email : JPrim
  properties : List (String × JPrim)
  deriving DecidableEq, Repr

/-- Observable actions of one middleware invocation, in order: forwarded
identify calls and invocations of the pass-through continuation. -/
inductive MwEvent where
  | mwForward (arg : IdentifyArg)
  | mwNext (payload : SegPayload)
  deriving DecidableEq, Repr

/-- The source middleware registered by `addMiddleware`: on an `identify`
event whose trait under `emailFieldName` is truthy it forwards the
extracted email and properties to `tag.identify`, and it always ends by
calling `next(payload)` with the payload it received. -/
def segmentMiddleware (opts : SegmentPluginOptions) (payload : SegPayload) :
    List MwEvent :=
  let event := payload.event
  (if event.type = "identify" then
    match lookupTrait event.traits opts.emailFieldName with
    | some email =>
        if email.truthy then
          [MwEvent.mwForward
            { email := email,
              properties := buildProperties event.traits opts.propertiesFieldNames }]
        else []
    | none => []
  else []) ++ [MwEvent.mwNext payload]

/-- The middleware applied to a stream of events, one invocation per
payload, in order. -/
def runSegmentMiddleware (opts : SegmentPluginOptions) :
    List SegPayload → List MwEvent
  | [] => []
  | p :: rest => segmentMiddleware opts p ++ runSegmentMiddleware opts rest

/-- The payloads passed to the continuation, in order. -/
def nextsOf (evs : List MwEvent) : List SegPayload :=
  evs.filterMap fun e =>
    match e with
    | MwEvent.mwNext p => some p
    | MwEvent.mwForward _ => none

/-- The forwarded identify arguments, in order. -/
def forwardsOf (evs : List MwEvent) : List IdentifyArg :=
  evs.filterMap fun e =>
    match e with
    | MwEvent.mwForward a => some a
    | MwEvent.mwNext _ => none

/-- What becomes of the promise returned by a forwarded `tag.identify`
call: it fulfils; it rejects and an attached `.catch` handler logs the
error; it rejects with no handler attached (an unhandled rejection); or an
error is raised synchronously into the wrapped third party's call
stack. -/
inductive ForwardDisposition where
  | completed
  | caughtLogged (e : APIError)
  | unhandledRejection (e : APIError)
  | thrownIntoCaller (e : APIError)
  deriving DecidableEq, Repr

/-- The Segment plugin's forwarding site,
`tag.identify(...).catch((err) => console.error("Failed to identify", err))`:
a rejection is consumed by the attached handler, which logs it. -/
def segmentForwardDisposition : Except APIError Unit → ForwardDisposition
  | Except.ok _ => ForwardDisposition.completed
  | Except.error e => ForwardDisposition.caughtLogged e

/-- The Karte plugin's forwarding sites, `tag.identify(value.email)` (v2
branch) and `tag.identify(value.email)` (v1 branch of `proxyKarteTag`): no
rejection handler is attached, so a rejection is left unhandled; being
asynchronous it is never raised into the wrapped third party's call
stack. -/
def karteForwardDisposition : Except APIError Unit → ForwardDisposition
  | Except.ok _ => ForwardDisposition.completed
  | Except.error e => ForwardDisposition.unhandledRejection e

/-! ### The Karte callable plugin (plugin-karte, `proxyKarteTag`) -/

/-- An argument of the wrapped `window.krt` callable: a primitive value,
an object, or `undefined` (which is also what destructuring yields past
the end of the argument list). -/
inductive KarteArg where
  | kPrim (p : JPrim)
  | kObj (fields : List (String × JPrim))
  | kUndef
  deriving DecidableEq, Repr

/-- The property read `value.email`: a field lookup on an object; on a
non-null primitive it yields `undefined`; on `null` or `undefined` the
read throws a `TypeError` (`Except.error ()`). -/
def KarteArg.emailField : KarteArg → Except Unit (Option JPrim)
  | KarteArg.kObj fields => Except.ok (lookupKey fields "email")
  | KarteArg.kPrim JPrim.pNull => Except.error ()
  | KarteArg.kPrim _ => Except.ok none
  | KarteArg.kUndef => Except.error ()

/-- Observable actions of one wrapper invocation, in order: a call of the
captured original (with the arguments passed to it and the value it
returned) or a forwarded `tag.identify(email)`. -/
inductive KEvent (r : Type) where
  | callOrig (args : List KarteArg) (ret : r)
  | forwardIdentify (email : JPrim)
  deriving DecidableEq, Repr

/-- The replacement installed over `window.krt` by `proxyKarteTag` (v2
branch).  Guard chain from the source: an empty argument list, a first
argument other than `"send"`, a second other than `"identify"`, or no
truthy `value.email` each delegate to the captured original with the
spread original arguments and return its value.  When every guard passes,
the original is invoked with the three arguments `("send", name, value)`,
then `tag.identify(value.email)` is forwarded, and the wrapper returns
`undefined` (`Except.error ()` marks the `TypeError` thrown by
`value.email` when `value` is `null`/`undefined`). -/
def karteV2Wrapper {r : Type} (karteTagV2 : List KarteArg → r)
    (args : List KarteArg) : List (KEvent r) × Except Unit (Option r) :=
  if args.length = 0 then
    ([KEvent.callOrig args (karteTagV2 args)], Except.ok (some (karteTagV2 args)))
  else
    let method := args.getD 0 KarteArg.kUndef
    if method ≠ KarteArg.kPrim (JPrim.pStr "send") then
      ([KEvent.callOrig args (karteTagV2 args)], Except.ok (some (karteTagV2 args)))
    else
      let name := args.getD 1 KarteArg.kUndef
      if name ≠ KarteArg.kPrim (JPrim.pStr "identify") then
        ([KEvent.callOrig args (karteTagV2 args)], Except.ok (some (karteTagV2 args)))
      else
        let value := args.getD 2 KarteArg.kUndef
        match value.emailField with
        | Except.error _ => ([], Except.error ())
        | Except.ok emailOpt =>
            match emailOpt with
            | some email =>
                if email.truthy then
                  let delegated := [KarteArg.kPrim (JPrim.pStr "send"), name, value]
                  ([KEvent.callOrig delegated (karteTagV2 delegated),
                    KEvent.forwardIdentify email],
                   Except.ok none)
                else
                  ([KEvent.callOrig args (karteTagV2 args)],
                   Except.ok (some (karteTagV2 args)))
            | none =>
                ([KEvent.callOrig args (karteTagV2 args)],
                 Except.ok (some (karteTagV2 args)))

/-- The wrapper behaviour the spec claims, stated from its words: every
invocation first delegates to the original with the identical arguments
and returns the original's value, and afterwards — when the arguments are
`("send", "identify", value)` with a truthy `value.email` — it
additionally forwards exactly one `tag.identify(email)`. -/
def karteV2WrapperPerSpec {r : Type} (karteTagV2 : List KarteArg → r)
    (args : List KarteArg) : List (KEvent r) × Except Unit (Option r) :=
  let forwarded :=
    if args.getD 0 KarteArg.kUndef = KarteArg.kPrim (JPrim.pStr "send") ∧
       args.getD 1 KarteArg.kUndef = KarteArg.kPrim (JPrim.pStr "identify") then
      match (args.getD 2 KarteArg.kUndef).emailField with
      | Except.ok (some email) =>
          if email.truthy then [KEvent.forwardIdentify email] else []
      | _ => []
    else []
  (KEvent.callOrig args (karteTagV2 args) :: forwarded,
   Except.ok (some (karteTagV2 args)))

/-- The wrapper behaviour as amended to match the source: a non-matching
invocation delegates with identical arguments and preserves the return
value; a matching invocation delegates exactly the three arguments
`("send", name, value)` — identical to the invocation only when it has
exactly three arguments — forwards one identify, and returns `undefined`;
when the first two arguments match but `value` is `null`/`undefined`, the
property read throws a `TypeError` before the original is invoked. -/
def karteV2WrapperAmended {r : Type} (karteTagV2 : List KarteArg → r)
    (args : List KarteArg) : List (KEvent r) × Except Unit (Option r) :=
  if args.getD 0 KarteArg.kUndef = KarteArg.kPrim (JPrim.pStr "send") ∧
     args.getD 1 KarteArg.kUndef = KarteArg.kPrim (JPrim.pStr "identify") then
    match (args.getD 2 KarteArg.kUndef).emailField with
    | Except.error _ => ([], Except.error ())
    | Except.ok (some email) =>
        if email.truthy then
          ([KEvent.callOrig
              [KarteArg.kPrim (JPrim.pStr "send"), args.getD 1 KarteArg.kUndef,
               args.getD 2 KarteArg.kUndef]
              (karteTagV2
                [KarteArg.kPrim (JPrim.pStr "send"), args.getD 1 KarteArg.kUndef,
                 args.getD 2 KarteArg.kUndef]),
            KEvent.forwardIdentify email],
           Except.ok none)
        else
          ([KEvent.callOrig args (karteTagV2 args)], Except.ok (some (karteTagV2 args)))
    | Except.ok none =>
        ([KEvent.callOrig args (karteTagV2 args)], Except.ok (some (karteTagV2 args)))
  else
    ([KEvent.callOrig args (karteTagV2 args)], Except.ok (some (karteTagV2 args)))

/-! ### Helper lemmas -/

/-- On a bot tag every gated call is a silent fulfilled no-op. -/
theorem runCall_bot (remote : RemoteBehavior) (env : BrowserEnv) (c : GatedCall) :
    runCall { isBot := true, initFailed := false } remote env c = ([], Except.ok ()) := by
  cases c <;> rfl

/-- On a bot tag a call sequence produces no events and all-ok results. -/
theorem runCalls_bot (remote : RemoteBehavior) (env : BrowserEnv) :
    ∀ cs : List GatedCall,
      runCalls { isBot := true, initFailed := false } remote env cs =
        ([], cs.map fun _ => Except.ok ())
  | [] => rfl
  | c :: cs => by
      simp [runCalls, runCall_bot, runCalls_bot remote env cs]

/-- On a failed-init tag every gated call suspends once and then becomes a
silent fulfilled no-op. -/
theorem runCall_initFailed (remote : RemoteBehavior) (env : BrowserEnv) (c : GatedCall) :
    runCall { isBot := false, initFailed := true } remote env c =
      ([TagEv.awaitInit], Except.ok ()) := by
  cases c <;> rfl

/-- On a failed-init tag a call sequence issues no network requests and
yields all-ok results. -/
theorem runCalls_initFailed (remote : RemoteBehavior) (env : BrowserEnv) :
    ∀ cs : List GatedCall,
      runCalls { isBot := false, initFailed := true } remote env cs =
        (cs.map fun _ => TagEv.awaitInit, cs.map fun _ => Except.ok ())
  | [] => rfl
  | c :: cs => by
      simp [runCalls, runCall_initFailed, runCalls_initFailed remote env cs]

/-- C1: for an orchestrator whose automation classifier returned `true` at
construction, any sequence of identify/track/page calls — the automatic
construction-time page view included — issues zero network requests to the
remote client (no `startSession`, `identify` or `track` call is ever
dispatched), and every such call fulfils without error. -/
theorem bot_gate_no_network_all_ok (autoTrack : Bool) (remote : RemoteBehavior)
    (env : BrowserEnv) (calls : List GatedCall) :
    netEvents (tagScenario true autoTrack remote env calls).1 = [] ∧
    (tagScenario true autoTrack remote env calls).2.all resOk = true := by
  have h := runCalls_bot remote env
    ((if autoTrack then [GatedCall.callPage none []] else []) ++ calls)
  constructor
  · simp [tagScenario, SenditlyTag.initSession, h, netEvents]
  · simp [tagScenario, SenditlyTag.initSession, h, resOk]

/-- C4: when session initialization resolved as failed (the remote
`startSession` call rejected), every subsequent identify/track/page call
fulfils without error and without any network request to the remote
client — the failure degrades to a silent no-op — and `startSession` is
never retried: the scenario's outbound requests are exactly the single
construction-time `netStart`. -/
theorem failed_init_silent_noop (e : APIError) (idRes trRes : Except APIError Unit)
    (autoTrack : Bool) (env : BrowserEnv) (calls : List GatedCall) :
    netEvents (tagScenario false autoTrack
      { startResult := Except.error e, identifyResult := idRes, trackResult := trRes }
      env calls).1 = [TagEv.netStart] ∧
    (tagScenario false autoTrack
      { startResult := Except.error e, identifyResult := idRes, trackResult := trRes }
      env calls).2.all resOk = true := by
  have h := runCalls_initFailed
    { startResult := Except.error e, identifyResult := idRes, trackResult := trRes } env
    ((if autoTrack then [GatedCall.callPage none []] else []) ++ calls)
  constructor
  · simp [tagScenario, SenditlyTag.initSession, h, netEvents, TagEv.isNet]
  · simp [tagScenario, SenditlyTag.initSession, h, resOk]

/-- A gated call on a non-bot tag never issues the `startSession`
request. -/
theorem runCall_no_start (b : Bool) (remote : RemoteBehavior) (env : BrowserEnv)
    (c : GatedCall) :
    (runCall { isBot := false, initFailed := b } remote env c).1.filter TagEv.isStart
      = [] := by
  cases b <;> cases c <;>
    simp only [runCall, SenditlyTag.identify, SenditlyTag.track, SenditlyTag.page,
      SenditlyTag.waitForReady, SessionAPI.identify, EventAPI.track] <;>
    (repeat' split) <;>
    simp_all [TagEv.isStart, List.filter]

/-- A gated-call sequence on a non-bot tag contains no `startSession`
request. -/
theorem runCalls_no_start (b : Bool) (remote : RemoteBehavior) (env : BrowserEnv) :
    ∀ cs : List GatedCall,
      (runCalls { isBot := false, initFailed := b } remote env cs).1.filter TagEv.isStart
        = []
  | [] => rfl
  | c :: cs => by
      simp [runCalls, List.filter_append, runCall_no_start b remote env c,
        runCalls_no_start b remote env cs]

/-- A gated call on a non-bot tag first suspends on `_waitForInit`. -/
theorem runCall_head_awaitInit (b : Bool) (remote : RemoteBehavior) (env : BrowserEnv)
    (c : GatedCall) :
    (runCall { isBot := false, initFailed := b } remote env c).1.head?
      = some TagEv.awaitInit := by
  cases b <;> cases c <;>
    simp only [runCall, SenditlyTag.identify, SenditlyTag.track, SenditlyTag.page,
      SenditlyTag.waitForReady, SessionAPI.identify, EventAPI.track] <;>
    split <;> (try split) <;>
    simp_all

/-- C2: for a non-bot orchestrator and any sequence of gated calls issued
before initialization resolves, the whole trace begins with the single
`startSession` request — issued once at construction, where the one
`_waitForInit` promise is created and stored — and `netStart` occurs
exactly once in the trace, so no gated operation's network request is
issued before the session-start request; moreover every gated call on a
non-bot tag suspends on the shared `_waitForInit` (its first event is
`awaitInit`) before issuing any network request of its own. -/
theorem single_start_before_gated_calls (autoTrack initFailedFlag : Bool)
    (remote : RemoteBehavior) (env : BrowserEnv) (calls : List GatedCall) :
    (tagScenario false autoTrack remote env calls).1.head? = some TagEv.netStart ∧
    ((tagScenario false autoTrack remote env calls).1.filter TagEv.isStart).length = 1 ∧
    (∀ c : GatedCall,
      (runCall { isBot := false, initFailed := initFailedFlag } remote env c).1.head?
        = some TagEv.awaitInit) := by
  refine ⟨?_, ?_, fun c => runCall_head_awaitInit initFailedFlag remote env c⟩
  · cases hs : remote.startResult <;>
      simp [tagScenario, SenditlyTag.initSession, hs]
  · cases hs : remote.startResult <;>
      cases hb : (SenditlyTag.initSession false remote).1.initFailed <;>
      simp_all [tagScenario, SenditlyTag.initSession, List.filter_append,
        runCalls_no_start, TagEv.isStart]

/-- C3 counterexample: on a ready non-bot orchestrator,
`identify` with the invalid email `"not-an-email"` does reject with the
ValidationError, but its event trace is `[awaitInit, validationFail]`: the
caller is suspended on session initialization first, and the rejection is
not the trace's first event — refuting the claim that the rejection occurs
synchronously before any suspension point. -/
theorem invalid_email_rejection_not_before_suspension :
    (SenditlyTag.identify { isBot := false, initFailed := false }
      { startResult := Except.ok (), identifyResult := Except.ok (),
        trackResult := Except.ok () }
      { email := "not-an-email", properties := [], mailingLists := [] }).1 =
      [TagEv.awaitInit, TagEv.validationFail] ∧
    ¬ ((SenditlyTag.identify { isBot := false, initFailed := false }
      { startResult := Except.ok (), identifyResult := Except.ok (),
        trackResult := Except.ok () }
      { email := "not-an-email", properties := [], mailingLists := [] }).1.head? =
        some TagEv.validationFail) :=
  ⟨by decide, by decide⟩

/-- `SessionAPI.identify` on an invalid email takes the throwing branch. -/
theorem sessionIdentify_invalid (remote : RemoteBehavior) (req : SessionIdentifyRequest)
    (h : isValidEmail req.email = false) :
    SessionAPI.identify remote req =
      ([TagEv.validationFail], Except.error { code := 400, message := "invalid email" }) := by
  unfold SessionAPI.identify
  rw [h]
  simp

/-- On a ready non-bot tag, `identify` suspends and then delegates to
`SessionAPI.identify`. -/
theorem tagIdentify_ready (remote : RemoteBehavior) (req : SessionIdentifyRequest) :
    SenditlyTag.identify { isBot := false, initFailed := false } remote req =
      ([TagEv.awaitInit] ++ (SessionAPI.identify remote req).1,
       (SessionAPI.identify remote req).2) := rfl

/-- C3 (amended): an identify with a syntactically invalid email never
issues any network request, in any orchestrator state; on a non-bot
orchestrator whose initialization resolved `Ready` it rejects with the
ValidationError (`APIError` code 400) thrown inside `SessionAPI.identify`
— but only after the suspension on session initialization: `awaitInit`
precedes `validationFail` in the trace.  (On a bot or failed-init
orchestrator the call fulfils silently without validating at all.) -/
theorem invalid_email_rejects_after_suspension (remote : RemoteBehavior)
    (req : SessionIdentifyRequest) (h : isValidEmail req.email = false) :
    (∀ t : SenditlyTag, netEvents (t.identify remote req).1 = []) ∧
    SenditlyTag.identify { isBot := false, initFailed := false } remote req =
      ([TagEv.awaitInit, TagEv.validationFail],
       Except.error { code := 400, message := "invalid email" }) := by
  constructor
  · rintro ⟨bot, fail⟩
    cases bot with
    | true => cases fail <;> rfl
    | false =>
      cases fail with
      | true => rfl
      | false =>
        rw [tagIdentify_ready, sessionIdentify_invalid remote req h]
        rfl
  · rw [tagIdentify_ready, sessionIdentify_invalid remote req h]
    rfl

/-- Witness for the amended C3 at the concrete input
`identify { email := "not-an-email" }` on a ready non-bot orchestrator. -/
theorem invalid_email_rejects_after_suspension_witness :
    isValidEmail "not-an-email" = false ∧
    netEvents (SenditlyTag.identify { isBot := false, initFailed := false }
      { startResult := Except.ok (), identifyResult := Except.ok (),
        trackResult := Except.ok () }
      { email := "not-an-email", properties := [], mailingLists := [] }).1 = [] ∧
    SenditlyTag.identify { isBot := false, initFailed := false }
      { startResult := Except.ok (), identifyResult := Except.ok (),
        trackResult := Except.ok () }
      { email := "not-an-email", properties := [], mailingLists := [] } =
      ([TagEv.awaitInit, TagEv.validationFail],
       Except.error { code := 400, message := "invalid email" }) :=
  ⟨by decide,
   (invalid_email_rejects_after_suspension _ _ (by decide)).1 _,
   (invalid_email_rejects_after_suspension _ _ (by decide)).2⟩

/-- C5: for a started (listening) watcher whose last-known URL is `A`, a
history mutation (`pushState` or `replaceState`, both wrapped by the same
`wrapHistoryMethod`) after which the location still equals `A` fires the
callback zero times and leaves the watcher unchanged, while a mutation
after which the location is `B ≠ A` fires the callback exactly once with
previous URL `A` and current URL `B`, and in the same step updates the
last-known URL to `B`. -/
theorem navigation_dedup_single_fire (A B : String) :
    wrapHistoryMethodCall { currentUrl := A, isListening := true } B =
      if B = A then ({ currentUrl := A, isListening := true }, [])
      else ({ currentUrl := B, isListening := true }, [(B, A)]) := by
  unfold wrapHistoryMethodCall
  by_cases h : B = A
  · simp [h]
  · simp [h, Ne.symm h]

/-- C6: the disposer returned by `listenUrlChange` is idempotent,
referentially reinstalls both captured pre-wrap history entry points (and
removes the `popstate` subscription), and once `isListening` is false —
the flag each wrapper consults after the underlying native call and
before invoking the callback, which also covers a mutation in flight at
disposal time — a wrapped mutation or a popstate event fires zero
callbacks and leaves the state unchanged, whatever the URLs. -/
theorem disposer_idempotent_restores_silences :
    (∀ (obs : UrlObserver) (env : HistoryEnv) (st : ObserverState),
      obs.disconnect (obs.disconnect env st).1 (obs.disconnect env st).2 =
        obs.disconnect env st) ∧
    (∀ (env : HistoryEnv) (href : String),
      (((listenUrlChange env href).2.1.disconnect (listenUrlChange env href).1
          (listenUrlChange env href).2.2).1.pushState = env.pushState ∧
       ((listenUrlChange env href).2.1.disconnect (listenUrlChange env href).1
          (listenUrlChange env href).2.2).1.replaceState = env.replaceState ∧
       ((listenUrlChange env href).2.1.disconnect (listenUrlChange env href).1
          (listenUrlChange env href).2.2).1.popStateListened = false)) ∧
    (∀ (u newLoc : String),
      wrapHistoryMethodCall { currentUrl := u, isListening := false } newLoc =
        ({ currentUrl := u, isListening := false }, []) ∧
      handlePopState { currentUrl := u, isListening := false } newLoc =
        ({ currentUrl := u, isListening := false }, [])) :=
  ⟨fun _ _ _ => rfl, fun _ _ => ⟨rfl, rfl, rfl⟩, fun _ _ => ⟨rfl, rfl⟩⟩

/-- C8 counterexample: the callable-style (Karte) plugin attaches no
rejection handler to its forwarded `tag.identify`, so a concrete rejected
forward is left as an unhandled rejection — it is not caught and logged,
refuting the claim for that plugin variant. -/
theorem karte_forward_unhandled_counterexample :
    karteForwardDisposition (Except.error { code := 500, message := "network" }) =
      ForwardDisposition.unhandledRejection { code := 500, message := "network" } ∧
    ¬ karteForwardDisposition (Except.error { code := 500, message := "network" }) =
      ForwardDisposition.caughtLogged { code := 500, message := "network" } :=
  ⟨rfl, by decide⟩

/-- C8 (amended): both variants' forwarding dispositions are fully
characterized — a fulfilled forward completes; a rejection is caught and
logged by the middleware-style (Segment) plugin's attached handler, while
the callable-style (Karte) plugin leaves it as an unhandled asynchronous
rejection; in neither variant is a forwarding failure ever raised
(`thrownIntoCaller`) into the wrapped third party's call stack. -/
theorem forward_failure_never_thrown (e : APIError) :
    segmentForwardDisposition (Except.ok ()) = ForwardDisposition.completed ∧
    karteForwardDisposition (Except.ok ()) = ForwardDisposition.completed ∧
    segmentForwardDisposition (Except.error e) = ForwardDisposition.caughtLogged e ∧
    karteForwardDisposition (Except.error e) = ForwardDisposition.unhandledRejection e ∧
    (∀ (res : Except APIError Unit) (e2 : APIError),
      ¬ segmentForwardDisposition res = ForwardDisposition.thrownIntoCaller e2) ∧
    (∀ (res : Except APIError Unit) (e2 : APIError),
      ¬ karteForwardDisposition res = ForwardDisposition.thrownIntoCaller e2) := by
  refine ⟨rfl, rfl, rfl, rfl, fun res e2 h => ?_, fun res e2 h => ?_⟩ <;>
    cases res <;> exact ForwardDisposition.noConfusion h

/-- The middleware's possible forward on one payload: the single identify
argument when the event is an `identify` with a truthy configured email
trait, nothing otherwise. -/
theorem segmentMiddleware_eq (opts : SegmentPluginOptions) (p : SegPayload) :
    segmentMiddleware opts p =
      (match lookupTrait p.event.traits opts.emailFieldName with
       | some v =>
           if p.event.type = "identify" ∧ v.truthy then
             [MwEvent.mwForward
               { email := v,
                 properties := buildProperties p.event.traits opts.propertiesFieldNames }]
           else []
       | none => []) ++ [MwEvent.mwNext p] := by
  unfold segmentMiddleware
  by_cases hid : p.event.type = "identify"
  · cases hl : lookupTrait p.event.traits opts.emailFieldName with
    | none => simp [hid, hl]
    | some v => by_cases ht : v.truthy <;> simp [hid, hl, ht]
  · cases hl : lookupTrait p.event.traits opts.emailFieldName with
    | none => simp [hid, hl]
    | some v => simp [hid, hl]

/-- `nextsOf` distributes over concatenation. -/
theorem nextsOf_append (a b : List MwEvent) :
    nextsOf (a ++ b) = nextsOf a ++ nextsOf b := by
  simp [nextsOf, List.filterMap_append]

/-- `forwardsOf` distributes over concatenation. -/
theorem forwardsOf_append (a b : List MwEvent) :
    forwardsOf (a ++ b) = forwardsOf a ++ forwardsOf b := by
  simp [forwardsOf, List.filterMap_append]

/-- Each middleware invocation passes exactly its own payload through. -/
theorem nextsOf_segmentMiddleware (opts : SegmentPluginOptions) (p : SegPayload) :
    nextsOf (segmentMiddleware opts p) = [p] := by
  rw [segmentMiddleware_eq, nextsOf_append]
  cases hl : lookupTrait p.event.traits opts.emailFieldName with
  | none => simp [nextsOf]
  | some v =>
      by_cases hc : p.event.type = "identify" ∧ v.truthy <;> simp [hc, nextsOf]

/-- The forwards of one middleware invocation. -/
theorem forwardsOf_segmentMiddleware (opts : SegmentPluginOptions) (p : SegPayload) :
    forwardsOf (segmentMiddleware opts p) =
      (match lookupTrait p.event.traits opts.emailFieldName with
       | some v =>
           if p.event.type = "identify" ∧ v.truthy then
             [{ email := v,
                properties := buildProperties p.event.traits opts.propertiesFieldNames }]
           else []
       | none => []) := by
  rw [segmentMiddleware_eq, forwardsOf_append]
  cases hl : lookupTrait p.event.traits opts.emailFieldName with
  | none => simp [forwardsOf]
  | some v =>
      by_cases hc : p.event.type = "identify" ∧ v.truthy <;> simp [hc, forwardsOf]

/-- Pass-through across a stream: the continuation receives exactly the
stream, unmodified and in order. -/
theorem nextsOf_runSegmentMiddleware (opts : SegmentPluginOptions) :
    ∀ stream : List SegPayload,
      nextsOf (runSegmentMiddleware opts stream) = stream
  | [] => rfl
  | p :: rest => by
      rw [runSegmentMiddleware, nextsOf_append, nextsOf_segmentMiddleware,
        nextsOf_runSegmentMiddleware opts rest]
      rfl

/-- Forwards across a stream: one identify per matching identify event, in
stream order. -/
theorem forwardsOf_runSegmentMiddleware (opts : SegmentPluginOptions) :
    ∀ stream : List SegPayload,
      forwardsOf (runSegmentMiddleware opts stream) =
        stream.filterMap (fun p =>
          match lookupTrait p.event.traits opts.emailFieldName with
          | some v =>
              if p.event.type = "identify" ∧ v.truthy then
                some { email := v,
                       properties := buildProperties p.event.traits
                         opts.propertiesFieldNames }
              else none
          | none => none)
  | [] => rfl
  | p :: rest => by
      rw [runSegmentMiddleware, forwardsOf_append, forwardsOf_segmentMiddleware,
        forwardsOf_runSegmentMiddleware opts rest, List.filterMap_cons]
      cases hl : lookupTrait p.event.traits opts.emailFieldName with
      | none => rfl
      | some v =>
          by_cases hc : p.event.type = "identify" ∧ v.truthy <;> simp [hc]

/-- C9: over any event stream the registered middleware (a) passes every
payload through to the continuation unmodified and in order, (b) on each
payload forwards exactly one identify — carrying the truthy trait under
the configured email field name and the properties extracted from the
configured property field names — when the event is an `identify` with
such a trait and forwards nothing otherwise, the forward preceding the
pass-through continuation call, and (c) across the stream the forwarded
identifies are exactly those of the matching identify events, in order. -/
theorem middleware_forwarding_passthrough (opts : SegmentPluginOptions)
    (stream : List SegPayload) :
    nextsOf (runSegmentMiddleware opts stream) = stream ∧
    (∀ p : SegPayload,
      segmentMiddleware opts p =
        (match lookupTrait p.event.traits opts.emailFieldName with
         | some v =>
             if p.event.type = "identify" ∧ v.truthy then
               [MwEvent.mwForward
                 { email := v,
                   properties := buildProperties p.event.traits
                     opts.propertiesFieldNames }]
             else []
         | none => []) ++ [MwEvent.mwNext p]) ∧
    forwardsOf (runSegmentMiddleware opts stream) =
      stream.filterMap (fun p =>
        match lookupTrait p.event.traits opts.emailFieldName with
        | some v =>
            if p.event.type = "identify" ∧ v.truthy then
              some { email := v,
                     properties := buildProperties p.event.traits
                       opts.propertiesFieldNames }
            else none
        | none => none) :=
  ⟨nextsOf_runSegmentMiddleware opts stream, segmentMiddleware_eq opts,
   forwardsOf_runSegmentMiddleware opts stream⟩

/-- Reading back through a JavaScript field assignment. -/
theorem lookupKey_setKey {α : Type} (l : List (String × α)) (k : String) (v : α)
    (f : String) :
    lookupKey (setKey l k v) f = if k = f then some v else lookupKey l f := by
  induction l with
  | nil => simp [setKey, lookupKey]
  | cons hd tl ih =>
      obtain ⟨k0, v0⟩ := hd
      by_cases h0 : k0 = k
      · subst h0
        by_cases hf : k0 = f <;> simp [setKey, lookupKey, hf]
      · have h0s : ¬ k = k0 := fun he => h0 he.symm
        by_cases hf : k0 = f
        · subst hf
          simp [setKey, lookupKey, h0, h0s]
        · simp [setKey, lookupKey, h0, hf, ih]

/-- Reading back through the whole `reduce`: a key is bound exactly when it
is one of the folded field names with a truthy trait value, and then it is
bound to that trait value. -/
theorem lookupKey_foldl_propertiesStep (traits : Option (List (String × JPrim))) :
    ∀ (names : List String) (acc : List (String × JPrim)) (f : String),
      lookupKey (names.foldl (propertiesStep traits) acc) f =
        if f ∈ names ∧ optTruthy (lookupTrait traits f) then lookupTrait traits f
        else lookupKey acc f
  | [], acc, f => by simp
  | n :: ns, acc, f => by
      rw [List.foldl_cons, lookupKey_foldl_propertiesStep traits ns]
      by_cases hmem : f ∈ ns ∧ optTruthy (lookupTrait traits f) = true
      · simp only [hmem, and_true, if_pos, List.mem_cons]
        simp [hmem.1, hmem.2]
      · rw [if_neg hmem]
        by_cases hfn : f = n
        · subst hfn
          cases hl : lookupTrait traits f with
          | none =>
              simp [propertiesStep, hl, optTruthy]
          | some v =>
              by_cases ht : v.truthy
              · simp [propertiesStep, hl, ht, optTruthy, lookupKey_setKey]
              · simp [propertiesStep, hl, ht, optTruthy]
        · have hns : ¬ (f ∈ n :: ns ∧ optTruthy (lookupTrait traits f) = true) := by
            intro hcon
            rcases hcon with ⟨hin, htr⟩
            rcases List.mem_cons.mp hin with h1 | h1
            · exact hfn h1
            · exact hmem ⟨h1, htr⟩
          rw [if_neg hns]
          have hnf : ¬ n = f := fun he => hfn he.symm
          unfold propertiesStep
          cases hl : lookupTrait traits n with
          | none => rfl
          | some v =>
              by_cases ht : v.truthy
              · simp [ht, lookupKey_setKey, hnf]
              · simp [ht]

/-- C10: in any identify the middleware forwards, a configured property
field appears in the forwarded `properties` exactly when its trait value
is truthy, and is then bound to that trait value; configured fields whose
trait value is falsy (absent, `undefined`, `null`, `false`, `0` or the
empty string) are omitted, and no other key appears. -/
theorem forwarded_properties_truthy_only (opts : SegmentPluginOptions)
    (p : SegPayload) (a : IdentifyArg) (f : String)
    (ha : a ∈ forwardsOf (segmentMiddleware opts p)) :
    lookupKey a.properties f =
      if f ∈ opts.propertiesFieldNames ∧ optTruthy (lookupTrait p.event.traits f)
      then lookupTrait p.event.traits f else none := by
  rw [forwardsOf_segmentMiddleware] at ha
  have hprops : a.properties = buildProperties p.event.traits opts.propertiesFieldNames := by
    cases hl : lookupTrait p.event.traits opts.emailFieldName with
    | none => rw [hl] at ha; simp at ha
    | some v =>
        rw [hl] at ha
        by_cases hc : p.event.type = "identify" ∧ v.truthy = true
        · simp only [hc, and_self, if_pos, List.mem_singleton] at ha
          rw [ha]
        · simp [hc] at ha
  rw [hprops, buildProperties, lookupKey_foldl_propertiesStep]
  by_cases hcond : f ∈ opts.propertiesFieldNames ∧
      optTruthy (lookupTrait p.event.traits f) = true
  · rw [if_pos hcond, if_pos hcond]
  · rw [if_neg hcond, if_neg hcond]
    rfl

/-- Witness for C10: concrete options `emailFieldName := "email"`,
`propertiesFieldNames := ["name", "age"]` and an identify event whose
`age` trait is the falsy `0`: the forwarded identify carries only the
truthy `name`, and `age` is absent from its properties. -/
theorem forwarded_properties_truthy_only_witness :
    (({ email := JPrim.pStr "a@b.com", properties := [("name", JPrim.pStr "x")] } :
        IdentifyArg) ∈
      forwardsOf (segmentMiddleware
        { emailFieldName := "email", propertiesFieldNames := ["name", "age"],
          timeout := 10000 }
        { event := { type := "identify",
                     traits := some [("email", JPrim.pStr "a@b.com"),
                                     ("name", JPrim.pStr "x"),
                                     ("age", JPrim.pNum 0)] } })) ∧
    lookupKey [("name", JPrim.pStr "x")] "age" =
      (if "age" ∈ ["name", "age"] ∧
          optTruthy (lookupTrait
            (some [("email", JPrim.pStr "a@b.com"), ("name", JPrim.pStr "x"),
                   ("age", JPrim.pNum 0)]) "age")
       then lookupTrait
              (some [("email", JPrim.pStr "a@b.com"), ("name", JPrim.pStr "x"),
                     ("age", JPrim.pNum 0)]) "age"
       else none) :=
  ⟨by decide,
   forwarded_properties_truthy_only
     { emailFieldName := "email", propertiesFieldNames := ["name", "age"],
       timeout := 10000 }
     { event := { type := "identify",
                  traits := some [("email", JPrim.pStr "a@b.com"),
                                  ("name", JPrim.pStr "x"),
                                  ("age", JPrim.pNum 0)] } }
     { email := JPrim.pStr "a@b.com", properties := [("name", JPrim.pStr "x")] }
     "age" (by decide)⟩

/-- C7 counterexample: for the concrete four-argument invocation
`("send", "identify", obj-with-email, "extra")` of the wrapped callable —
with the original taken as the argument-counting function — the source
wrapper invokes the original with only the three truncated arguments and
returns `undefined`, while the claimed behaviour (delegate with identical
arguments, preserve the return value) would invoke it with all four and
return its value `4`: the two disagree in both the delegated call and the
returned value. -/
theorem karte_wrapper_counterexample :
    (karteV2Wrapper (fun as => as.length)
        [KarteArg.kPrim (JPrim.pStr "send"), KarteArg.kPrim (JPrim.pStr "identify"),
         KarteArg.kObj [("email", JPrim.pStr "x@y.com")],
         KarteArg.kPrim (JPrim.pStr "extra")]).1 ≠
      (karteV2WrapperPerSpec (fun as => as.length)
        [KarteArg.kPrim (JPrim.pStr "send"), KarteArg.kPrim (JPrim.pStr "identify"),
         KarteArg.kObj [("email", JPrim.pStr "x@y.com")],
         KarteArg.kPrim (JPrim.pStr "extra")]).1 ∧
    (karteV2Wrapper (fun as => as.length)
        [KarteArg.kPrim (JPrim.pStr "send"), KarteArg.kPrim (JPrim.pStr "identify"),
         KarteArg.kObj [("email", JPrim.pStr "x@y.com")],
         KarteArg.kPrim (JPrim.pStr "extra")]).2 = Except.ok none ∧
    (karteV2WrapperPerSpec (fun as => as.length)
        [KarteArg.kPrim (JPrim.pStr "send"), KarteArg.kPrim (JPrim.pStr "identify"),
         KarteArg.kObj [("email", JPrim.pStr "x@y.com")],
         KarteArg.kPrim (JPrim.pStr "extra")]).2 = Except.ok (some 4) :=
  ⟨by decide, rfl, rfl⟩

/-- C7 (amended): the installed wrapper behaves exactly as
`karteV2WrapperAmended`: a non-matching invocation (for example
`("send", "pageview", obj)`) first delegates unconditionally to the
original with the identical arguments, preserves its return value, and
forwards nothing; a matching identify-with-email invocation first
delegates the three arguments `("send", name, value)` to the original —
identical to the invocation only when it has exactly three arguments —
then forwards exactly one `tag.identify(email)` and returns `undefined`;
and when the first two arguments match but `value` is `null`/`undefined`
the property read throws before the original is invoked. -/
theorem karte_wrapper_matches_amended {r : Type} (orig : List KarteArg → r)
    (args : List KarteArg) :
    karteV2Wrapper orig args = karteV2WrapperAmended orig args := by
  unfold karteV2Wrapper karteV2WrapperAmended
  by_cases hlen : args.length = 0
  · have ha : args = [] := List.length_eq_zero.mp hlen
    subst ha
    rfl
  · rw [if_neg hlen]
    generalize args.getD 0 KarteArg.kUndef = m0
    generalize args.getD 1 KarteArg.kUndef = m1
    generalize args.getD 2 KarteArg.kUndef = m2
    by_cases h0 : m0 = KarteArg.kPrim (JPrim.pStr "send")
    · by_cases h1 : m1 = KarteArg.kPrim (JPrim.pStr "identify")
      · subst h0
        subst h1
        simp only [ne_eq, not_true_eq_false, if_false, and_self, if_true, reduceIte]
        cases he : m2.emailField with
        | error u => simp [he]
        | ok eo =>
            cases eo with
            | none => simp [he]
            | some email => by_cases ht : email.truthy <;> simp [he, ht]
      · simp [h0, h1]
    · simp [h0]
